import Mathlib

/-!
Shallow embedding of the cat-auto-power controller (src/main.py).

The embedding covers:
- the Python string helpers used by send_command (str.strip, str.removeprefix,
  str.removesuffix, int parsing), implemented over the character list of the
  string so that every definition is structurally recursive and executable;
- send_command (src/main.py lines 353-369): the framed request/response helper,
  including its handling of the rejection sentinel and of socket errors;
- the body of the while-loop of main (src/main.py lines 380-416), modelled as a
  pure function of the loop state and the two query responses of the cycle;
- the bounded history deque (collections.deque with maxlen 1000, line 35);
- the POST branch of the power endpoint (src/main.py lines 335-345).
-/

namespace CatAutoPower

/-- Python str.strip on a character list: whitespace removed from both ends. -/
def pyStripList (l : List Char) : List Char :=
  ((l.dropWhile Char.isWhitespace).reverse.dropWhile Char.isWhitespace).reverse

/-- Python str.strip: whitespace removed from both ends. -/
def pyStrip (s : String) : String :=
  ⟨pyStripList s.data⟩

/-- Python str.startswith. -/
def pyStartsWith (s p : String) : Bool :=
  p.data.isPrefixOf s.data

/-- Python str.endswith. -/
def pyEndsWith (s p : String) : Bool :=
  p.data.isSuffixOf s.data

/-- Python str.removeprefix: drop the leading occurrence of p when present. -/
def stripPre (s p : String) : String :=
  if pyStartsWith s p then ⟨s.data.drop p.data.length⟩ else s

/-- Python str.removesuffix: drop the trailing occurrence of p when present. -/
def stripSuf (s p : String) : String :=
  if pyEndsWith s p then ⟨s.data.take (s.data.length - p.data.length)⟩ else s

/-- Decimal digit run to a number: none unless the list is a nonempty, all
digit run; this is the core of Python int parsing on ASCII payloads. -/
def pyDigits? (l : List Char) : Option Nat :=
  if l ≠ [] ∧ l.all Char.isDigit then
    some (l.foldl (fun acc c => acc * 10 + (c.toNat - 48)) 0)
  else none

/-- Python int(s) on the ASCII payloads this program sees: optional sign, then
decimal digits, surrounding whitespace tolerated; none models a ValueError. -/
def pyInt? (s : String) : Option Int :=
  match pyStripList s.data with
  | '-' :: ds => (pyDigits? ds).map (fun n => -(n : Int))
  | '+' :: ds => (pyDigits? ds).map (fun n => (n : Int))
  | ds => (pyDigits? ds).map (fun n => (n : Int))

/-- One observable event of sock.recv inside send_command: either a decoded
chunk of bytes, or a raised socket.error carrying its message. -/
inductive SockEvent where
  | line (s : String)
  | sockErr (msg : String)
deriving Repr, DecidableEq

/-- What a call of send_command can come back with. The Python function only
ever returns a plain string; the transportError constructor exists so that the
specification claim, which demands a distinguished fatal transport error, can
be stated and compared against the code. blocked models the recv loop running
out of events without finding a match (it would keep blocking on recv). -/
inductive SendOutcome where
  | value (s : String)
  | transportError (msg : String)
  | blocked
deriving Repr, DecidableEq

/-- The while-True recv loop of send_command (src/main.py lines 357-366): read
chunks until one, once stripped, starts with the expected head or equals the
sentinel "?;"; strip the expected head and tail from it and trim; the sentinel
maps to the empty string. A socket.error raised by recv is caught by the
surrounding except and its message returned as an ordinary string. -/
def recvLoop (pre suf : String) : List SockEvent → SendOutcome
  | [] => SendOutcome.blocked
  | SockEvent.sockErr msg :: _ => SendOutcome.value msg
  | SockEvent.line raw :: rest =>
    let response := pyStrip raw
    if pyStartsWith response pre ∨ response = "?;" then
      let processed := pyStrip (stripSuf (stripPre response pre) suf)
      if processed = "?;" then SendOutcome.value "" else SendOutcome.value processed
    else recvLoop pre suf rest

/-- send_command (src/main.py lines 353-369). sendFault is the socket.error
raised by sock.sendall, when any: the except clause turns it into an ordinary
string return value. With read_response set, the recv loop runs over the
events of the connection; otherwise the empty string is returned. -/
def send_command (sendFault : Option String) (pre suf : String)
    (read_response : Bool) (events : List SockEvent) : SendOutcome :=
  match sendFault with
  | some msg => SendOutcome.value msg
  | none => if read_response then recvLoop pre suf events else SendOutcome.value ""

/-- One point of the telemetry history (the dict appended at src/main.py lines
388-393). -/
structure Reading where
  timestamp : Nat
  power : Int
  target : Int
  drive : Int
deriving Repr, DecidableEq

/-- collections.deque(maxlen := cap).append: append on the right, evicting from
the left once the capacity is exceeded. -/
def dequeAppend (cap : Nat) (xs : List Reading) (x : Reading) : List Reading :=
  let ys := xs ++ [x]
  if cap < ys.length then ys.drop (ys.length - cap) else ys

/-- The mutable state the while loop of main carries across cycles. -/
structure LoopState where
  current_drive : Int
  target_pwr : Int
  history : List Reading
deriving Repr, DecidableEq

/-- The outcome of one cycle: the updated state, the drive levels sent on the
wire by ZZPC set commands this cycle, and whether an exception escaped the
loop body (terminating the session via the handler at src/main.py line 418). -/
structure CycleOut where
  state : LoopState
  sent : List Int
  aborted : Bool
deriving Repr, DecidableEq

/-- The body of the while loop of main (src/main.py lines 380-416), as a pure
function of the state, the cycle timestamp, and the strings the two queries of
the cycle return: pwr_response for the ZZRM5 power query, drive_response for
the ZZPC drive query (consulted only when the code actually issues it). A
ValueError from int() escapes to the session handler and aborts the loop. -/
def mainCycle (st : LoopState) (ts : Nat) (pwr_response drive_response : String) :
    CycleOut :=
  if pwr_response ≠ "" then
    match pyInt? pwr_response with
    | none => ⟨st, [], true⟩
    | some current_pwr =>
      let r : Reading := Reading.mk ts current_pwr st.target_pwr st.current_drive
      let st1 : LoopState := { st with history := dequeAppend 1000 st.history r }
      if current_pwr > st1.target_pwr ∨ current_pwr < st1.target_pwr then
        if drive_response ≠ "" then
          match pyInt? drive_response with
          | none => ⟨st1, [], true⟩
          | some cd =>
            if cd ≥ 60 then
              ⟨{ st1 with current_drive := 10 }, [10], false⟩
            else if current_pwr > st1.target_pwr then
              ⟨{ st1 with current_drive := cd - 1 }, [cd - 1], false⟩
            else if current_pwr > 3 ∧ current_pwr < st1.target_pwr then
              ⟨{ st1 with current_drive := cd + 1 }, [cd + 1], false⟩
            else
              ⟨{ st1 with current_drive := cd }, [], false⟩
        else ⟨st1, [], false⟩
      else ⟨st1, [], false⟩
  else ⟨st, [], false⟩

/-- A JSON value as the POST body of the power endpoint can carry it; jnull
also models a Python None. -/
inductive JsonVal where
  | jint (n : Int)
  | jstr (s : String)
  | jnull
deriving Repr, DecidableEq

/-- The response of the POST branch of the power endpoint. The code only ever
produces unauthorized (abort(401)) or ok; validationError exists so that the
specification claim demanding a validation failure can be stated. -/
inductive PostResult where
  | unauthorized
  | validationError
  | ok (msg : String)
deriving Repr, DecidableEq

/-- The POST branch of the power endpoint (src/main.py lines 340-345): abort
with 401 when the api_key field is absent or differs from the configured key;
otherwise store data.get with no validation (absent field stores None) and
report success. Returns the response and the new value of target_pwr. -/
def power_post (key : String) (data_api_key : Option JsonVal)
    (data_target_power : Option JsonVal) (cur : JsonVal) : PostResult × JsonVal :=
  if data_api_key = none ∨ data_api_key ≠ some (JsonVal.jstr key) then
    (PostResult.unauthorized, cur)
  else
    (PostResult.ok "Target power updated successfully",
     data_target_power.getD JsonVal.jnull)

/-- A string that int() parses successfully is in particular nonempty. -/
lemma ne_empty_of_pyInt {s : String} {p : Int} (h : pyInt? s = some p) : s ≠ "" := by
  intro e
  subst e
  have h0 : pyInt? "" = none := by decide
  rw [h0] at h
  cases h

/-- dequeAppend always drops exactly the overflow from the left. -/
lemma dequeAppend_eq_drop (cap : Nat) (xs : List Reading) (x : Reading) :
    dequeAppend cap xs x = (xs ++ [x]).drop ((xs ++ [x]).length - cap) := by
  simp only [dequeAppend]
  by_cases h : cap < (xs ++ [x]).length
  · rw [if_pos h]
  · rw [if_neg h, Nat.sub_eq_zero_of_le (Nat.le_of_not_lt h), List.drop_zero]

/-- Folding dequeAppend over a list of readings keeps exactly the newest cap
entries, in order, provided the initial contents already respect the bound. -/
lemma foldl_dequeAppend (cap : Nat) (rs : List Reading) :
    ∀ init : List Reading, init.length ≤ cap →
      rs.foldl (dequeAppend cap) init = (init ++ rs).drop ((init ++ rs).length - cap) := by
  induction rs with
  | nil =>
    intro init h
    simp [Nat.sub_eq_zero_of_le h]
  | cons r rs ih =>
    intro init h
    have hstep : dequeAppend cap init r =
        (init ++ [r]).drop ((init ++ [r]).length - cap) := dequeAppend_eq_drop cap init r
    have hlen : (dequeAppend cap init r).length ≤ cap := by
      rw [hstep, List.length_drop]
      simp only [List.length_append, List.length_cons, List.length_nil]
      omega
    have hdropLe : (init ++ [r]).length - cap ≤ (init ++ [r]).length := Nat.sub_le _ _
    calc (r :: rs).foldl (dequeAppend cap) init
        = rs.foldl (dequeAppend cap) (dequeAppend cap init r) := rfl
      _ = ((dequeAppend cap init r) ++ rs).drop
            (((dequeAppend cap init r) ++ rs).length - cap) := ih _ hlen
      _ = (init ++ r :: rs).drop ((init ++ r :: rs).length - cap) := by
          rw [hstep, ← List.drop_append_of_le_length hdropLe, List.drop_drop]
          simp only [List.append_assoc, List.singleton_append]
          congr 1
          simp only [List.length_drop, List.length_append, List.length_cons, List.length_nil]
          omega

/-- Claim C1: the specification asserts every drive level computed and sent
lies in [0,100], decrementing never going below 0. The decrement branch of the
loop has no lower clamp: with measured power 15 W, target 10 W and the device
reporting drive level 0, the code computes and sends drive -1, which the test
suite of the repository itself (the minimum-bound case of
test_calculate_drive_adjustment_bounds_checking) expects to stay at 0. -/
theorem C1_drive_sent_below_zero :
    (mainCycle ⟨50, 10, []⟩ 0 "15" "0").sent = [-1] ∧ ((-1 : Int) < 0) := by decide

/-- Claim C2, counterexample: a socket fault in send_command is not turned
into a fatal transport error; the except clause returns its message as an
ordinary string value, both for a fault during sendall and during recv. -/
theorem C2_socket_fault_returned_as_value :
    send_command (some "[Errno 104] Connection reset by peer") "ZZRM5" " W;" true [] =
      SendOutcome.value "[Errno 104] Connection reset by peer" ∧
    send_command (some "[Errno 104] Connection reset by peer") "ZZRM5" " W;" true [] ≠
      SendOutcome.transportError "[Errno 104] Connection reset by peer" ∧
    send_command none "ZZRM5" " W;" true
        [SockEvent.sockErr "[Errno 110] Connection timed out"] =
      SendOutcome.value "[Errno 110] Connection timed out" := by decide

/-- Claim C2, amended: a socket fault during send or during receive is caught
inside send_command and returned to the caller as an ordinary string value;
the control loop then terminates only indirectly, because parsing that
non-numeric message with int() raises, aborting the session. -/
theorem C2_amended_fault_to_string (msg pre suf : String) (rr : Bool)
    (events : List SockEvent) (st : LoopState) (ts : Nat) (dr : String)
    (hmsg : pyInt? msg = none) (hne : msg ≠ "") :
    send_command (some msg) pre suf rr events = SendOutcome.value msg ∧
    recvLoop pre suf (SockEvent.sockErr msg :: events) = SendOutcome.value msg ∧
    (mainCycle st ts msg dr).aborted = true := by
  refine ⟨rfl, rfl, ?_⟩
  simp [mainCycle, hne, hmsg]

/-- Claim C2, witness for the amended theorem at a concrete fault message. -/
theorem C2_amended_fault_to_string_witness :
    send_command (some "timed out") "ZZRM5" " W;" true [] = SendOutcome.value "timed out" ∧
    recvLoop "ZZRM5" " W;" [SockEvent.sockErr "timed out"] = SendOutcome.value "timed out" ∧
    (mainCycle ⟨0, 25, []⟩ 0 "timed out" "").aborted = true :=
  C2_amended_fault_to_string "timed out" "ZZRM5" " W;" true [] ⟨0, 25, []⟩ 0 ""
    (by decide) (by decide)

/-- Claim C3, counterexample: a non-empty, non-numeric power payload does not
make the cycle skip the value; int() raises and the exception escapes to the
session handler, terminating the control loop. -/
theorem C3_parse_error_aborts_loop :
    (mainCycle ⟨0, 10, []⟩ 0 "garbage" "").aborted = true ∧
    ¬(mainCycle ⟨0, 10, []⟩ 0 "garbage" "").aborted = false := by decide

/-- Claim C3, amended: a non-empty power payload that int() cannot parse
aborts the control loop via the session-level exception handler; only an
empty payload is skipped, leaving the state untouched. -/
theorem C3_amended_parse_error_fatal (st : LoopState) (ts : Nat) (s dr : String)
    (h1 : s ≠ "") (h2 : pyInt? s = none) :
    (mainCycle st ts s dr).aborted = true ∧ mainCycle st ts "" dr = ⟨st, [], false⟩ := by
  constructor
  · simp [mainCycle, h1, h2]
  · simp [mainCycle]

/-- Claim C3, witness for the amended theorem at a concrete payload. -/
theorem C3_amended_parse_error_fatal_witness :
    (mainCycle ⟨5, 30, []⟩ 7 "abc" "").aborted = true ∧
    mainCycle ⟨5, 30, []⟩ 7 "" "" = ⟨⟨5, 30, []⟩, [], false⟩ :=
  C3_amended_parse_error_fatal ⟨5, 30, []⟩ 7 "abc" "" (by decide) (by decide)

/-- Claim C4, counterexample: the claim demands the empty string for every
expected head and tail pair, but for the drive query pair ("ZZPC", ";") the
suffix strip turns the sentinel "?;" into "?", which is returned as a
non-empty value. -/
theorem C4_sentinel_not_empty_for_drive_pair :
    send_command none "ZZPC" ";" true [SockEvent.line "?;"] = SendOutcome.value "?" ∧
    send_command none "ZZPC" ";" true [SockEvent.line "?;"] ≠ SendOutcome.value "" := by decide

/-- Claim C4, amended: a response line equal to "?;" always passes the match
check, is then prefix and suffix stripped and trimmed, and the call returns
the empty string exactly in case the stripped form still equals "?;" (which
holds for the power query pair ("ZZRM5", " W;") but not for ("ZZPC", ";")). -/
theorem C4_amended_sentinel (pre suf : String) :
    send_command none pre suf true [SockEvent.line "?;"] =
      (if pyStrip (stripSuf (stripPre "?;" pre) suf) = "?;" then SendOutcome.value ""
       else SendOutcome.value (pyStrip (stripSuf (stripPre "?;" pre) suf))) ∧
    send_command none "ZZRM5" " W;" true [SockEvent.line "?;"] = SendOutcome.value "" := by
  constructor
  · have h : pyStrip "?;" = "?;" := by decide
    simp only [send_command, recvLoop, h]
    simp
  · decide

/-- Claim C5, counterexample: with the correct key, an out-of-range
target_power such as -1 or 12000 is not rejected; the endpoint reports
success and overwrites the stored target with the bad value. -/
theorem C5_write_not_validated :
    power_post "secret" (some (JsonVal.jstr "secret")) (some (JsonVal.jint (-1)))
        (JsonVal.jint 25) =
      (PostResult.ok "Target power updated successfully", JsonVal.jint (-1)) ∧
    (power_post "secret" (some (JsonVal.jstr "secret")) (some (JsonVal.jint (-1)))
        (JsonVal.jint 25)).1 ≠ PostResult.validationError ∧
    (power_post "secret" (some (JsonVal.jstr "secret")) (some (JsonVal.jint 12000))
        (JsonVal.jint 25)).2 = JsonVal.jint 12000 := by decide

/-- Claim C5, amended: with the correct key the endpoint performs no
validation at all: whatever target_power carries (missing, stored as None;
non-integer; out of range) is stored verbatim and success is reported. -/
theorem C5_amended_write_stores_verbatim (key : String) (tp : Option JsonVal)
    (cur : JsonVal) :
    power_post key (some (JsonVal.jstr key)) tp cur =
      (PostResult.ok "Target power updated successfully", tp.getD JsonVal.jnull) := by
  simp [power_post]

/-- Claim C6, counterexample: with measured power 101 W and target 100 W the
absolute error is 1, inside the claimed 1.0 W deadband, yet the code issues a
drive-set command (drive 49 from queried drive 50). -/
theorem C6_adjusts_inside_deadband :
    (mainCycle ⟨50, 100, []⟩ 0 "101" "50").sent = [49] ∧ |(101 : Int) - 100| ≤ 1 := by decide

/-- Claim C6, amended: the code has no deadband; a cycle issues no drive-set
command only when the measured power exactly equals the target. -/
theorem C6_amended_no_command_iff_equal (st : LoopState) (ts : Nat) (pr dr : String)
    (p : Int) (hp : pyInt? pr = some p) (heq : p = st.target_pwr) :
    (mainCycle st ts pr dr).sent = [] ∧ (mainCycle st ts pr dr).aborted = false := by
  have hne : pr ≠ "" := ne_empty_of_pyInt hp
  subst heq
  constructor <;> simp [mainCycle, hne, hp]

/-- Claim C6, witness for the amended theorem at measured = target = 10. -/
theorem C6_amended_no_command_iff_equal_witness :
    (mainCycle ⟨50, 10, []⟩ 0 "10" "50").sent = [] ∧
    (mainCycle ⟨50, 10, []⟩ 0 "10" "50").aborted = false :=
  C6_amended_no_command_iff_equal ⟨50, 10, []⟩ 0 "10" "50" 10 (by decide) (by decide)

/-- Claim C7, counterexample: the claim predicts next_drive =
clamp(queried + delta, 0, 100); with queried drive 70, measured 15 W and
target 10 W that would be 69, but the code resets any queried drive of at
least 60 to the fixed value 10. -/
theorem C7_reset_instead_of_clamp :
    (mainCycle ⟨0, 10, []⟩ 0 "15" "70").sent = [10] ∧
    (mainCycle ⟨0, 10, []⟩ 0 "15" "70").sent ≠ [(70 : Int) - 1] := by decide

/-- Claim C7, amended: on a cycle with measured power different from the
target the controller does re-query the device drive and decides from the
queried value d alone (the cached current_drive is not consulted): d of at
least 60 is reset to 10; otherwise measured above target sends d - 1;
otherwise measured below target sends d + 1 only when measured power exceeds
3 W; no clamping to [0,100] is applied anywhere. -/
theorem C7_amended_adjustment_rule (st : LoopState) (ts : Nat) (pr dr : String)
    (p d : Int) (hp : pyInt? pr = some p) (hd : pyInt? dr = some d)
    (hne : p ≠ st.target_pwr) :
    (mainCycle st ts pr dr).sent =
      (if d ≥ 60 then [10]
       else if p > st.target_pwr then [d - 1]
       else if p > 3 ∧ p < st.target_pwr then [d + 1]
       else []) ∧
    (mainCycle st ts pr dr).state.current_drive =
      (if d ≥ 60 then 10
       else if p > st.target_pwr then d - 1
       else if p > 3 ∧ p < st.target_pwr then d + 1
       else d) := by
  have hpr : pr ≠ "" := ne_empty_of_pyInt hp
  have hdr : dr ≠ "" := ne_empty_of_pyInt hd
  have hor : p > st.target_pwr ∨ p < st.target_pwr := by
    rcases lt_or_gt_of_ne hne with h | h
    · exact Or.inr h
    · exact Or.inl h
  constructor <;> simp [mainCycle, hpr, hdr, hp, hd, hor] <;> split_ifs <;> simp_all

/-- Claim C7, witness for the amended theorem: queried drive 30, measured
15 W, target 10 W, so the decrement branch sends drive 29. -/
theorem C7_amended_adjustment_rule_witness :
    (mainCycle ⟨0, 10, []⟩ 0 "15" "30").sent =
      (if (30 : Int) ≥ 60 then [10]
       else if (15 : Int) > 10 then [(30 : Int) - 1]
       else if (15 : Int) > 3 ∧ (15 : Int) < 10 then [(30 : Int) + 1]
       else []) ∧
    (mainCycle ⟨0, 10, []⟩ 0 "15" "30").state.current_drive =
      (if (30 : Int) ≥ 60 then 10
       else if (15 : Int) > 10 then (30 : Int) - 1
       else if (15 : Int) > 3 ∧ (15 : Int) < 10 then (30 : Int) + 1
       else 30) :=
  C7_amended_adjustment_rule ⟨0, 10, []⟩ 0 "15" "30" 15 30 (by decide) (by decide) (by decide)

/-- Claim C8: a POST whose api_key field is absent or differs from the
configured key is rejected with 401 and the stored target is unchanged. -/
theorem C8_wrong_key_rejected (key : String) (dk : Option JsonVal)
    (tp : Option JsonVal) (cur : JsonVal)
    (h : dk = none ∨ dk ≠ some (JsonVal.jstr key)) :
    power_post key dk tp cur = (PostResult.unauthorized, cur) := by
  unfold power_post
  rw [if_pos h]

/-- Claim C8, witness: a mismatched key at a concrete request. -/
theorem C8_wrong_key_rejected_witness :
    power_post "secret" (some (JsonVal.jstr "wrong")) (some (JsonVal.jint 50))
        (JsonVal.jint 25) = (PostResult.unauthorized, JsonVal.jint 25) :=
  C8_wrong_key_rejected "secret" (some (JsonVal.jstr "wrong")) (some (JsonVal.jint 50))
    (JsonVal.jint 25) (by decide)

/-- Claim C9: the history deque of capacity 1000 (the append at src/main.py
line 388 into the deque of line 35) holds, after any sequence of appends from
empty, exactly the most recent min(n, 1000) readings in insertion order, the
oldest evicted first. -/
theorem C9_history_bounded_fifo (rs : List Reading) :
    rs.foldl (dequeAppend 1000) [] = rs.drop (rs.length - 1000) ∧
    (rs.foldl (dequeAppend 1000) []).length = min rs.length 1000 := by
  have h := foldl_dequeAppend 1000 rs [] (by simp)
  simp only [List.nil_append] at h
  refine ⟨h, ?_⟩
  rw [h, List.length_drop]
  omega

/-- Claim C10: while the measured power is at or below 3 W and strictly below
the target, with the queried drive below the 60 reset threshold, no branch of
the adjustment code fires and no drive-set command is issued that cycle. -/
theorem C10_low_power_suppresses_increment (st : LoopState) (ts : Nat)
    (pr dr : String) (p d : Int) (hp : pyInt? pr = some p) (hd : pyInt? dr = some d)
    (hlow : p ≤ 3) (hbelow : p < st.target_pwr) (hdrive : d < 60) :
    (mainCycle st ts pr dr).sent = [] := by
  have hpr : pr ≠ "" := ne_empty_of_pyInt hp
  have hdr : dr ≠ "" := ne_empty_of_pyInt hd
  have hor : p > st.target_pwr ∨ p < st.target_pwr := Or.inr hbelow
  simp [mainCycle, hpr, hdr, hp, hd, hor]
  rw [if_neg (show ¬(60 : Int) ≤ d by omega),
    if_neg (show ¬st.target_pwr < p by omega),
    if_neg (show ¬((3 : Int) < p ∧ p < st.target_pwr) by omega)]

/-- Claim C10, witness: measured 2 W, target 10 W, queried drive 50. -/
theorem C10_low_power_suppresses_increment_witness :
    (mainCycle ⟨50, 10, []⟩ 0 "2" "50").sent = [] :=
  C10_low_power_suppresses_increment ⟨50, 10, []⟩ 0 "2" "50" 2 50
    (by decide) (by decide) (by decide) (by decide) (by decide)

end CatAutoPower
